import Mathlib

/-!
Shallow embedding of the appointment-confirmation workflow of a
healthcare-appointment backend, translated from src/routes/doctor.js,
src/services/emailService.js and the doctor schema (src/unnamed/part_000).

JavaScript runtime conventions are made explicit: environment variables and
optional record fields are `Option String` with JS truthiness (undefined and
the empty string are falsy); exceptions thrown by the external collaborators
(SMTP verify, SMTP send, document save) are supplied as explicit outcome
values in a `Net` record; the network actions actually performed by a call
are returned as a trace.  Date formatting models Node with an en-US locale
and a UTC timezone, on ISO `YYYY-MM-DD` date strings.
-/

namespace MediCare

/-- JS truthiness of a possibly-undefined string (undefined and "" are falsy). -/
def truthy : Option String → Bool
  | none => false
  | some s => !(s == "")

/-- JS template-literal interpolation of a possibly-undefined string
(`undefined` is rendered literally). -/
def jsShow : Option String → String
  | none => "undefined"
  | some s => s

/-- `listStartsWith pat l` holds when `pat` is an initial segment of `l`. -/
def listStartsWith : List Char → List Char → Bool
  | [], _ => true
  | _ :: _, [] => false
  | p :: ps, c :: cs => p == c && listStartsWith ps cs

/-- `listOccurs pat l` holds when `pat` occurs contiguously inside `l`. -/
def listOccurs (pat : List Char) : List Char → Bool
  | [] => pat.isEmpty
  | c :: cs => listStartsWith pat (c :: cs) || listOccurs pat cs

/-- Substring test on strings, used to state "the rendered content contains X". -/
def containsSub (s pat : String) : Bool :=
  listOccurs pat.data s.data

/-- Long month names of the en-US locale (1 = January). -/
def monthNameEnUS : Nat → String
  | 1 => "January"
  | 2 => "February"
  | 3 => "March"
  | 4 => "April"
  | 5 => "May"
  | 6 => "June"
  | 7 => "July"
  | 8 => "August"
  | 9 => "September"
  | 10 => "October"
  | 11 => "November"
  | 12 => "December"
  | _ => ""

/-- Long weekday names of the en-US locale (0 = Sunday). -/
def weekdayNameEnUS : Nat → String
  | 0 => "Sunday"
  | 1 => "Monday"
  | 2 => "Tuesday"
  | 3 => "Wednesday"
  | 4 => "Thursday"
  | 5 => "Friday"
  | 6 => "Saturday"
  | _ => ""

/-- Month offsets of the Sakamoto day-of-week algorithm. -/
def sakamotoTable : List Nat := [0, 3, 2, 5, 0, 3, 5, 1, 4, 6, 2, 4]

/-- Day of week (0 = Sunday) of a Gregorian date, by the Sakamoto algorithm. -/
def dayOfWeek (y m d : Nat) : Nat :=
  let y := if m < 3 then y - 1 else y
  (y + y / 4 - y / 100 + y / 400 + sakamotoTable.getD (m - 1) 0 + d) % 7

/-- Split a character list on a separator character. -/
def splitOnChar (sep : Char) : List Char → List (List Char)
  | [] => [[]]
  | c :: cs =>
    let rest := splitOnChar sep cs
    if c == sep then [] :: rest
    else
      match rest with
      | r :: rs => (c :: r) :: rs
      | [] => [[c]]

/-- Parse a nonempty all-digit character list as a natural number. -/
def charsToNat? (cs : List Char) : Option Nat :=
  if cs.isEmpty || !cs.all Char.isDigit then none
  else some (cs.foldl (fun n c => n * 10 + (c.toNat - 48)) 0)

/-- Parse an ISO `YYYY-MM-DD` date string, the date format the frontend
supplies to the confirmation endpoint. -/
def parseDateYMD (s : String) : Option (Nat × Nat × Nat) :=
  match splitOnChar '-' s.data with
  | [ys, ms, ds] =>
    match charsToNat? ys, charsToNat? ms, charsToNat? ds with
    | some y, some m, some d =>
      if 1 ≤ m && m ≤ 12 && 1 ≤ d && d ≤ 31 then some (y, m, d) else none
    | _, _, _ => none
  | _ => none

/-- Models `new Date(s).toLocaleDateString("en-US", \x7bweekday: "long",
year: "numeric", month: "long", day: "numeric"\x7d)` under a UTC timezone
(emailService.js lines 166-171): long form such as `Saturday, June 1, 2024`. -/
def toLocaleDateStringLong (s : String) : String :=
  match parseDateYMD s with
  | some (y, m, d) =>
    weekdayNameEnUS (dayOfWeek y m d) ++ ", " ++ monthNameEnUS m ++ " " ++
      toString d ++ ", " ++ toString y
  | none => "Invalid Date"

/-- Models `new Date(s).toLocaleDateString()` with no arguments under an en-US
default locale and a UTC timezone (doctor.js line 294): short numeric form such
as `6/1/2024`. -/
def toLocaleDateStringShort (s : String) : String :=
  match parseDateYMD s with
  | some (y, m, d) => toString m ++ "/" ++ toString d ++ "/" ++ toString y
  | none => "Invalid Date"

/-- The process environment slice read by the email service. -/
structure Env where
  EMAIL_USER : Option String
  EMAIL_PASS : Option String
deriving DecidableEq, Repr

/-- Result shape of `validateEmailConfig`. -/
structure ConfigResult where
  valid : Bool
  error : Option String := none
deriving DecidableEq, Repr

/-- emailService.js lines 4-12. -/
def validateEmailConfig (env : Env) : ConfigResult :=
  if !truthy env.EMAIL_USER then
    { valid := false, error := some "EMAIL_USER is not set in environment variables" }
  else if !truthy env.EMAIL_PASS then
    { valid := false, error := some "EMAIL_PASS is not set in environment variables" }
  else
    { valid := true }

/-- A thrown JS error as observed by the catch blocks: nodemailer errors carry
a `code` and sometimes a numeric SMTP `responseCode`. -/
structure JsError where
  code : Option String := none
  message : String := ""
  responseCode : Option Nat := none
deriving DecidableEq, Repr

/-- The nodemailer transporter value built per call. -/
structure Transporter where
  service : String
  user : String
  pass : String
deriving DecidableEq, Repr

/-- emailService.js lines 16-29: throws (here `Except.error`) when the
configuration is invalid, else returns a Gmail transporter. -/
def createTransporter (env : Env) : Except JsError Transporter :=
  let config := validateEmailConfig env
  if !config.valid then
    .error { message := config.error.getD "" }
  else
    .ok { service := "gmail", user := env.EMAIL_USER.getD "", pass := env.EMAIL_PASS.getD "" }

/-- Outcomes of the external collaborators for one request: `none` or `.ok`
means the awaited call succeeds, otherwise it throws the given error. -/
structure Net where
  verifyOutcome : Option JsError
  sendOutcome : Except JsError String
  saveOutcome : Option JsError := none
deriving Repr

/-- A fully rendered nodemailer message (the `mailOptions` object). -/
structure MailOptions where
  fromAddr : String
  toAddr : String
  subject : String
  html : String
  text : String := ""
deriving DecidableEq, Repr

/-- Network actions a call performs, in order. -/
inductive NetAction where
  | verify
  | sendMail (options : MailOptions)
deriving DecidableEq, Repr

/-- Whether an action is a delivery attempt (`transporter.sendMail`). -/
def isSend : NetAction → Bool
  | NetAction.sendMail _ => true
  | NetAction.verify => false

/-- Whether a trace contains a delivery attempt. -/
def attemptedSend (actions : List NetAction) : Bool :=
  actions.any isSend

/-- Whether the first network action of a trace, if any, is the connectivity
check (`transporter.verify`). -/
def verifyBeforeAnySend : List NetAction → Bool
  | [] => true
  | NetAction.verify :: _ => true
  | NetAction.sendMail _ :: _ => false

/-- Result object returned by the email-sending operations. -/
structure EmailResult where
  success : Bool
  messageId : Option String := none
  error : Option String := none
  details : Option String := none
deriving DecidableEq, Repr

/-- Doctor record (schema in src/unnamed/part_000). -/
structure Doctor where
  name : String
  email : String
  passwordHash : String
  phone : Option String := none
  gender : Option String := none
  status : String := "pending"
  idproof : Option String := none
  profilePicture : Option String := none
  doctorid : Option String := none
  specialization : Option String := none
  location : Option String := none
deriving DecidableEq, Repr

/-- Appointment record.  Modelled from the spec (section 3) and the fields the
source reads and writes: the appointment model file itself is not under src/,
but every field below is dictated by doctor.js and emailService.js. -/
structure Appointment where
  id : String
  doctorid : String
  patientName : Option String := none
  patientEmail : Option String := none
  description : Option String := none
  status : String := "requested"
  timeSlot : Option String := none
  appointmentDate : Option String := none
  confirmationMessage : Option String := none
deriving DecidableEq, Repr

/-- The HTML body of the appointment-confirmation email (emailService.js
lines 177-225), with the four conditional fragments of the template. -/
def confirmationHtml (patientName timeSlot confirmationMessage description : Option String)
    (doctorDetails : Option Doctor) (formattedDate : String) (currentYear : Nat) : String :=
  let doctorLine :=
    match doctorDetails with
    | some d => "<p style=\"color: #333333; margin: 8px 0;\"><strong>Doctor:</strong> Dr. " ++ d.name ++ "</p>"
    | none => ""
  let specLine :=
    match doctorDetails with
    | some d =>
      if truthy d.specialization then
        "<p style=\"color: #333333; margin: 8px 0;\"><strong>Specialization:</strong> " ++ d.specialization.getD "" ++ "</p>"
      else ""
    | none => ""
  let noteLine :=
    if truthy confirmationMessage then
      "<p style=\"color: #333333; margin: 8px 0;\"><strong>Doctor\x27s Note:</strong> " ++ confirmationMessage.getD "" ++ "</p>"
    else ""
  let concernLine :=
    if truthy description then
      "<p style=\"color: #333333; margin: 8px 0;\"><strong>Your Concern:</strong> " ++ description.getD "" ++ "</p>"
    else ""
  "\n        <div style=\"font-family: Arial, sans-serif; max-width: 600px; margin: 0 auto; padding: 20px; background-color: #f9f9f9;\">\n" ++
  "          <div style=\"background: linear-gradient(135deg, #667eea 0%, #764ba2 100%); color: white; padding: 30px; text-align: center; border-radius: 10px 10px 0 0;\">\n" ++
  "            <h1 style=\"margin: 0; font-size: 28px;\">Appointment Confirmed! 🎉</h1>\n" ++
  "            <p style=\"margin: 10px 0 0 0; font-size: 16px; opacity: 0.9;\">Your healthcare appointment has been scheduled</p>\n" ++
  "          </div>\n          \n" ++
  "          <div style=\"background-color: #ffffff; padding: 30px; border-radius: 0 0 10px 10px; box-shadow: 0 2px 4px rgba(0,0,0,0.1);\">\n" ++
  "            <h2 style=\"color: #333333; margin-bottom: 20px;\">Dear " ++ jsShow patientName ++ ",</h2>\n" ++
  "            <p style=\"color: #333333; font-size: 16px; line-height: 1.6;\">\n" ++
  "              We\x27re pleased to inform you that your appointment has been confirmed. Here are your appointment details:\n" ++
  "            </p>\n            \n" ++
  "            <div style=\"background-color: #f8f9fa; padding: 20px; border-radius: 8px; margin: 20px 0; border-left: 4px solid #667eea;\">\n" ++
  "              <h3 style=\"color: #333333; margin-top: 0;\">Appointment Details</h3>\n" ++
  "              <p style=\"color: #333333; margin: 8px 0;\"><strong>Date:</strong> " ++ formattedDate ++ "</p>\n" ++
  "              <p style=\"color: #333333; margin: 8px 0;\"><strong>Time Slot:</strong> " ++ jsShow timeSlot ++ "</p>\n" ++
  "              " ++ doctorLine ++ "\n" ++
  "              " ++ specLine ++ "\n" ++
  "              " ++ noteLine ++ "\n" ++
  "              " ++ concernLine ++ "\n" ++
  "            </div>\n\n" ++
  "            <h3 style=\"color: #333333; margin-bottom: 15px;\">Important Reminders:</h3>\n" ++
  "            <ul style=\"color: #333333; padding-left: 20px; margin-bottom: 20px;\">\n" ++
  "              <li style=\"margin-bottom: 8px;\">Please arrive 15 minutes before your scheduled time</li>\n" ++
  "              <li style=\"margin-bottom: 8px;\">Bring any relevant medical reports or documents</li>\n" ++
  "              <li style=\"margin-bottom: 8px;\">Carry your ID proof and insurance details if applicable</li>\n" ++
  "              <li style=\"margin-bottom: 8px;\">In case of emergency, contact the hospital directly</li>\n" ++
  "            </ul>\n\n" ++
  "            <p style=\"color: #333333; font-size: 16px; line-height: 1.6;\">\n" ++
  "              If you need to reschedule or cancel your appointment, please contact us at least 24 hours in advance.\n" ++
  "            </p>\n            \n" ++
  "            <div style=\"text-align: center; margin: 30px 0;\">\n" ++
  "              <a href=\"#\" style=\"display: inline-block; padding: 12px 24px; background: #667eea; color: white; text-decoration: none; border-radius: 5px; font-weight: bold;\">\n" ++
  "                Add to Calendar\n" ++
  "              </a>\n" ++
  "            </div>\n" ++
  "          </div>\n          \n" ++
  "          <div style=\"text-align: center; margin-top: 20px; padding: 20px; color: #666; font-size: 12px;\">\n" ++
  "            <p>Thank you for choosing MediCare Hub for your healthcare needs.</p>\n" ++
  "            <p>If you have any questions, please contact our support team.</p>\n" ++
  "            <p>© " ++ toString currentYear ++ " MediCare Hub. All rights reserved.</p>\n" ++
  "          </div>\n" ++
  "        </div>\n      "

/-- The plain-text body of the appointment-confirmation email (emailService.js
lines 227-252). -/
def confirmationText (patientName timeSlot confirmationMessage description : Option String)
    (doctorDetails : Option Doctor) (formattedDate : String) (currentYear : Nat) : String :=
  let doctorLine :=
    match doctorDetails with
    | some d => "Doctor: Dr. " ++ d.name
    | none => ""
  let specLine :=
    match doctorDetails with
    | some d =>
      if truthy d.specialization then "Specialization: " ++ d.specialization.getD "" else ""
    | none => ""
  let noteLine :=
    if truthy confirmationMessage then "Doctor\x27s Note: " ++ confirmationMessage.getD "" else ""
  let concernLine :=
    if truthy description then "Your Concern: " ++ description.getD "" else ""
  "\nAppointment Confirmed\n\nDear " ++ jsShow patientName ++
  ",\n\nYour appointment has been confirmed with the following details:\n\nDate: " ++
  formattedDate ++ "\nTime: " ++ jsShow timeSlot ++ "\n" ++
  doctorLine ++ "\n" ++ specLine ++ "\n" ++ noteLine ++ "\n" ++ concernLine ++
  "\n\nImportant Reminders:\n- Please arrive 15 minutes before your scheduled time\n" ++
  "- Bring any relevant medical reports or documents\n" ++
  "- Carry your ID proof and insurance details if applicable\n" ++
  "- In case of emergency, contact the hospital directly\n\n" ++
  "If you need to reschedule or cancel, please contact us at least 24 hours in advance.\n\n" ++
  "Thank you for choosing MediCare Hub.\n\n© " ++ toString currentYear ++
  " MediCare Hub. All rights reserved.\n      "

/-- The fully rendered `mailOptions` object of the appointment-confirmation
email (emailService.js lines 166-253), including the formatted date shared by
the subject line and the bodies. -/
def confirmationMailOptions (env : Env) (appointmentData : Appointment)
    (doctorDetails : Option Doctor) (currentYear : Nat) : MailOptions :=
  let formattedDate :=
    match appointmentData.appointmentDate with
    | some s => toLocaleDateStringLong s
    | none => "Invalid Date"
  { fromAddr := "\"MediCare Hub\" <" ++ jsShow env.EMAIL_USER ++ ">"
    toAddr := jsShow appointmentData.patientEmail
    subject := "Appointment Confirmed - " ++ formattedDate
    html := confirmationHtml appointmentData.patientName appointmentData.timeSlot
      appointmentData.confirmationMessage appointmentData.description doctorDetails
      formattedDate currentYear
    text := confirmationText appointmentData.patientName appointmentData.timeSlot
      appointmentData.confirmationMessage appointmentData.description doctorDetails
      formattedDate currentYear }

/-- The catch block of `sendAppointmentConfirmationEmail` (emailService.js
lines 259-274): classifies the thrown error and preserves its message. -/
def confirmationEmailCatch (e : JsError) : EmailResult :=
  let errorMessage :=
    if e.code == some "EAUTH" then
      "Email authentication failed. Please check your email configuration."
    else if e.code == some "ECONNECTION" || e.code == some "ETIMEDOUT" then
      "Connection error. Please check your internet connection."
    else if !(e.message == "") then e.message
    else "Failed to send appointment confirmation email."
  { success := false, error := some errorMessage, details := some e.message }

/-- emailService.js lines 138-275 (`sendAppointmentConfirmationEmail`):
config validation, transporter creation, connectivity check, recipient check,
rendering, send; every awaited failure falls into the catch block.  Returns
the result object and the trace of network actions performed. -/
def sendAppointmentConfirmationEmail (env : Env) (net : Net)
    (appointmentData : Appointment) (doctorDetails : Option Doctor)
    (currentYear : Nat) : EmailResult × List NetAction :=
  let config := validateEmailConfig env
  if !config.valid then
    ({ success := false, error := config.error }, [])
  else
    match createTransporter env with
    | .error e => (confirmationEmailCatch e, [])
    | .ok _transporter =>
      match net.verifyOutcome with
      | some e => (confirmationEmailCatch e, [NetAction.verify])
      | none =>
        if !truthy appointmentData.patientEmail then
          ({ success := false, error := some "Patient email not found" }, [NetAction.verify])
        else
          let mailOptions := confirmationMailOptions env appointmentData doctorDetails currentYear
          match net.sendOutcome with
          | .error e => (confirmationEmailCatch e, [NetAction.verify, NetAction.sendMail mailOptions])
          | .ok info =>
            ({ success := true, messageId := some info }, [NetAction.verify, NetAction.sendMail mailOptions])

/-- The HTML body of the OTP email (emailService.js lines 85-107). -/
def otpHtml (otp : String) (currentYear : Nat) : String :=
  "\n        <div style=\"font-family: Arial, sans-serif; max-width: 600px; margin: 0 auto; padding: 20px; background-color: #f9f9f9;\">\n" ++
  "          <div style=\"background-color: #ffffff; padding: 30px; border-radius: 10px; box-shadow: 0 2px 4px rgba(0,0,0,0.1);\">\n" ++
  "            <h2 style=\"color: #3B82F6; text-align: center; margin-bottom: 20px;\">Email Verification</h2>\n" ++
  "            <p style=\"color: #333333; font-size: 16px; line-height: 1.6;\">\n" ++
  "              Hello,\n" ++
  "            </p>\n" ++
  "            <p style=\"color: #333333; font-size: 16px; line-height: 1.6;\">\n" ++
  "              Thank you for registering with our Healthcare Portal. Please use the OTP below to verify your email address:\n" ++
  "            </p>\n" ++
  "            <div style=\"background-color: #3B82F6; color: #ffffff; padding: 20px; border-radius: 8px; text-align: center; margin: 30px 0;\">\n" ++
  "              <h1 style=\"margin: 0; font-size: 32px; letter-spacing: 5px;\">" ++ otp ++ "</h1>\n" ++
  "            </div>\n" ++
  "            <p style=\"color: #666666; font-size: 14px; line-height: 1.6;\">\n" ++
  "              This OTP is valid for 10 minutes. If you didn\x27t request this OTP, please ignore this email.\n" ++
  "            </p>\n" ++
  "            <hr style=\"border: none; border-top: 1px solid #e0e0e0; margin: 30px 0;\">\n" ++
  "            <p style=\"color: #999999; font-size: 12px; text-align: center; margin: 0;\">\n" ++
  "              © " ++ toString currentYear ++ " Healthcare Portal. All rights reserved.\n" ++
  "            </p>\n" ++
  "          </div>\n" ++
  "        </div>\n      "

/-- The `mailOptions` object of the OTP email (emailService.js lines 81-108). -/
def otpMailOptions (env : Env) (email otp : String) (currentYear : Nat) : MailOptions :=
  { fromAddr := "\"Medicare\" <" ++ jsShow env.EMAIL_USER ++ ">"
    toAddr := email
    subject := "Email Verification OTP - Medicare"
    html := otpHtml otp currentYear }

/-- The catch block of `sendOTPEmail` (emailService.js lines 114-133),
including the SMTP response-code 535 branch. -/
def otpEmailCatch (e : JsError) : EmailResult :=
  let errorMessage :=
    if e.code == some "EAUTH" then
      "Email authentication failed. Please check your EMAIL_USER and EMAIL_PASS in .env file. Make sure you\x27re using a Gmail App Password."
    else if e.code == some "ECONNECTION" || e.code == some "ETIMEDOUT" then
      "Connection error. Please check your internet connection and try again."
    else if e.responseCode == some 535 then
      "Authentication failed. Please verify your Gmail App Password is correct."
    else if !(e.message == "") then e.message
    else "Failed to send OTP email."
  { success := false, error := some errorMessage, details := some e.message }

/-- emailService.js lines 66-134 (`sendOTPEmail`). -/
def sendOTPEmail (env : Env) (net : Net) (email otp : String)
    (currentYear : Nat) : EmailResult × List NetAction :=
  let config := validateEmailConfig env
  if !config.valid then
    ({ success := false, error := config.error }, [])
  else
    match createTransporter env with
    | .error e => (otpEmailCatch e, [])
    | .ok _transporter =>
      match net.verifyOutcome with
      | some e => (otpEmailCatch e, [NetAction.verify])
      | none =>
        let mailOptions := otpMailOptions env email otp currentYear
        match net.sendOutcome with
        | .error e => (otpEmailCatch e, [NetAction.verify, NetAction.sendMail mailOptions])
        | .ok info =>
          ({ success := true, messageId := some info }, [NetAction.verify, NetAction.sendMail mailOptions])

/-- doctor.js lines 331-343 (`getDoctorById`).  The body reads the identifier
`mongoose`, which is never imported in doctor.js, so its first statement
throws a ReferenceError on every call; the catch block logs the error and
returns null.  (Even with mongoose in scope, `mongoose.model("Doctor")` names
a model that is never registered — the registered model is "doctor" — so the
lookup would still throw and return null.)  Hence the function ignores the
identity store entirely and returns null for every input. -/
def getDoctorById (_doctorId : String) (_doctors : List Doctor) : Option Doctor :=
  none

/-- The message the handler stores when the request supplies no (truthy)
confirmationMessage (doctor.js lines 293-294).  Note the date here goes
through `toLocaleDateString()` with no arguments — the short numeric form —
unlike the long form used in the email. -/
def defaultConfirmationMessage (timeSlot appointmentDate : String) : String :=
  "Your appointment has been confirmed for " ++ timeSlot ++ " on " ++
    toLocaleDateStringShort appointmentDate

/-- The JSON response of the confirmation endpoint, with its HTTP status. -/
structure ConfirmResponse where
  status : Nat
  success : Bool
  message : String
  appointment : Option Appointment := none
  emailSent : Option Bool := none
deriving DecidableEq, Repr

/-- Everything observable about one run of the confirmation handler: the HTTP
response, the appointment store afterwards, the email-service result the
handler received (it only logs it), and the network actions performed. -/
structure ConfirmOutcome where
  response : ConfirmResponse
  store : List Appointment
  emailResult : Option EmailResult := none
  netActions : List NetAction := []
deriving DecidableEq, Repr

/-- doctor.js lines 267-329: `POST /appointments/:appointmentId/confirm`.
`doctorId` is the session identity (`req.session.doctorId`).  `findOne` is the
first store record matching both the id and the assigned-doctor filter; `save`
writes the mutated record back (its outcome is `net.saveOutcome`, and a save
failure reaches the outer catch as a 500).  The email block never throws: the
doctor lookup and the email service both swallow their errors internally, so
the inner catch (lines 311-314) is unreachable, and the response hardcodes
`emailSent: true` (line 320) whatever the email result was. -/
def confirmAppointment (env : Env) (net : Net) (currentYear : Nat)
    (store : List Appointment) (doctors : List Doctor)
    (appointmentId doctorId timeSlot appointmentDate : String)
    (confirmationMessage : Option String) : ConfirmOutcome :=
  match store.find? (fun a => a.id == appointmentId && a.doctorid == doctorId) with
  | none =>
    { response := { status := 404, success := false, message := "Appointment not found" }
      store := store }
  | some foundAppointment =>
    let updated : Appointment :=
      { foundAppointment with
        status := "confirmed"
        timeSlot := some timeSlot
        appointmentDate := some appointmentDate
        confirmationMessage :=
          some (if truthy confirmationMessage then confirmationMessage.getD ""
                else defaultConfirmationMessage timeSlot appointmentDate) }
    match net.saveOutcome with
    | some e =>
      { response :=
          { status := 500, success := false
            message := "Error confirming appointment: " ++ e.message }
        store := store }
    | none =>
      let store2 := store.map (fun a => if a.id == updated.id then updated else a)
      let doctorDetails := getDoctorById doctorId doctors
      let emailRun := sendAppointmentConfirmationEmail env net updated doctorDetails currentYear
      { response :=
          { status := 200, success := true
            message := "Appointment confirmed successfully. Patient will be notified."
            appointment := some updated
            emailSent := some true }
        store := store2
        emailResult := some emailRun.1
        netActions := emailRun.2 }

/-! Concrete records of the section-8 scenario, used by several theorems. -/

/-- Environment with both configuration secrets present. -/
def envOk : Env := { EMAIL_USER := some "medicare@gmail.com", EMAIL_PASS := some "app-password" }

/-- Environment with the sender account identity missing. -/
def envNoUser : Env := { EMAIL_USER := none, EMAIL_PASS := some "app-password" }

/-- Environment with the sender credential missing. -/
def envNoPass : Env := { EMAIL_USER := some "medicare@gmail.com", EMAIL_PASS := none }

/-- External world in which every collaborator succeeds. -/
def netOk : Net := { verifyOutcome := none, sendOutcome := .ok "msg-1" }

/-- External world in which the SMTP send throws a bad-credential error. -/
def netAuthFail : Net :=
  { verifyOutcome := none
    sendOutcome := .error { code := some "EAUTH", message := "Invalid login: 535-5.7.8 Username and Password not accepted" } }

/-- The section-8 scenario appointment `a1`, assigned to doctor `d1`. -/
def a1 : Appointment := { id := "a1", doctorid := "d1", patientEmail := some "p@x.com" }

/-- The section-8 scenario doctor `d1`. -/
def d1 : Doctor :=
  { name := "Smith", email := "smith@x.com", passwordHash := "hash"
    doctorid := some "d1", specialization := some "Cardiology" }

/-- `a1` as the handler persists it after `confirm("a1","d1","10:00-10:30","2024-06-01")`
with no confirmation message supplied. -/
def a1Confirmed : Appointment :=
  { a1 with
    status := "confirmed"
    timeSlot := some "10:00-10:30"
    appointmentDate := some "2024-06-01"
    confirmationMessage := some (defaultConfirmationMessage "10:00-10:30" "2024-06-01") }

/-- An appointment of doctor `d1` with no patient email recorded. -/
def aNoEmail : Appointment := { id := "a2", doctorid := "d1" }

/-- C4: when no stored appointment has both the requested id and the
requesting doctor as its assigned doctor, the confirmation endpoint responds
404 with success false and the message "Appointment not found", leaves the
store unchanged, and performs no email call and no network action. -/
theorem C4_not_owned_404_no_write (env : Env) (net : Net) (currentYear : Nat)
    (store : List Appointment) (doctors : List Doctor)
    (appointmentId doctorId timeSlot appointmentDate : String)
    (confirmationMessage : Option String)
    (h : ∀ a ∈ store, ¬(a.id = appointmentId ∧ a.doctorid = doctorId)) :
    (confirmAppointment env net currentYear store doctors appointmentId doctorId
        timeSlot appointmentDate confirmationMessage) =
      { response := { status := 404, success := false, message := "Appointment not found" }
        store := store } := by
  have hf : store.find? (fun a => a.id == appointmentId && a.doctorid == doctorId) = none := by
    rw [List.find?_eq_none]
    intro a ha
    simpa using h a ha
  simp [confirmAppointment, hf]

/-- Witness for C4 at a concrete input: the store holds only `a1` (owned by
`d1`), and doctor `d2` asks to confirm it. -/
theorem C4_not_owned_404_no_write_witness :
    (confirmAppointment envOk netOk 2024 [a1] [d1] "a1" "d2"
        "10:00-10:30" "2024-06-01" none) =
      { response := { status := 404, success := false, message := "Appointment not found" }
        store := [a1] } :=
  C4_not_owned_404_no_write envOk netOk 2024 [a1] [d1] "a1" "d2"
    "10:00-10:30" "2024-06-01" none (by decide)

/-- C5: whenever the ownership lookup finds the appointment and the store
write succeeds, the caller receives the 200 success response with the success
message, whatever the environment and whatever the doctor-lookup and
notification outcomes are (both are absorbed), and the persisted record with
the requested id has status confirmed — the confirmation is never rolled
back. -/
theorem C5_success_once_write_succeeds (env : Env) (net : Net) (currentYear : Nat)
    (store : List Appointment) (doctors : List Doctor)
    (appointmentId doctorId timeSlot appointmentDate : String)
    (confirmationMessage : Option String) (m : Appointment)
    (hfind : store.find? (fun a => a.id == appointmentId && a.doctorid == doctorId) = some m)
    (hsave : net.saveOutcome = none) :
    (confirmAppointment env net currentYear store doctors appointmentId doctorId
        timeSlot appointmentDate confirmationMessage).response.status = 200 ∧
    (confirmAppointment env net currentYear store doctors appointmentId doctorId
        timeSlot appointmentDate confirmationMessage).response.success = true ∧
    (confirmAppointment env net currentYear store doctors appointmentId doctorId
        timeSlot appointmentDate confirmationMessage).response.message =
      "Appointment confirmed successfully. Patient will be notified." ∧
    ∀ b ∈ (confirmAppointment env net currentYear store doctors appointmentId doctorId
        timeSlot appointmentDate confirmationMessage).store,
      b.id = appointmentId → b.status = "confirmed" := by
  have hid : m.id = appointmentId := by
    have := List.find?_some hfind
    simp only [Bool.and_eq_true, beq_iff_eq] at this
    exact this.1
  refine ⟨by simp [confirmAppointment, hfind, hsave],
    by simp [confirmAppointment, hfind, hsave],
    by simp [confirmAppointment, hfind, hsave], ?_⟩
  intro b hb hbid
  simp only [confirmAppointment, hfind, hsave] at hb
  rcases List.mem_map.mp hb with ⟨a, _ha, hfa⟩
  subst hfa
  by_cases hcase : (a.id == m.id) = true
  · simp [hcase]
  · simp only [hcase, if_false, Bool.false_eq_true] at hbid ⊢
    exact absurd (hbid.trans hid.symm) (by simpa using hcase)

/-- Witness for C5 at a concrete input: `a1` is confirmed by its own doctor
while the notification channel rejects the credentials; the response is still
the 200 success and the stored record is confirmed. -/
theorem C5_success_once_write_succeeds_witness :
    (confirmAppointment envOk netAuthFail 2024 [a1] [d1] "a1" "d1"
        "10:00-10:30" "2024-06-01" none).response.status = 200 ∧
    (confirmAppointment envOk netAuthFail 2024 [a1] [d1] "a1" "d1"
        "10:00-10:30" "2024-06-01" none).response.success = true ∧
    (confirmAppointment envOk netAuthFail 2024 [a1] [d1] "a1" "d1"
        "10:00-10:30" "2024-06-01" none).response.message =
      "Appointment confirmed successfully. Patient will be notified." ∧
    ∀ b ∈ (confirmAppointment envOk netAuthFail 2024 [a1] [d1] "a1" "d1"
        "10:00-10:30" "2024-06-01" none).store,
      b.id = "a1" → b.status = "confirmed" :=
  C5_success_once_write_succeeds envOk netAuthFail 2024 [a1] [d1] "a1" "d1"
    "10:00-10:30" "2024-06-01" none a1 (by decide) rfl

/-- C6: confirmation is not idempotent and not guarded to be one-way: an
appointment already in status confirmed and owned by the requester can be
confirmed again with a different time slot, date and message; the call
succeeds and the persisted record carries the newly supplied values (last
write wins). -/
theorem C6_reconfirm_last_write_wins (env : Env) (net : Net) (currentYear : Nat)
    (store : List Appointment) (doctors : List Doctor)
    (appointmentId doctorId timeSlot2 appointmentDate2 : String)
    (cm2 : Option String) (m : Appointment)
    (hfind : store.find? (fun a => a.id == appointmentId && a.doctorid == doctorId) = some m)
    (_hprev : m.status = "confirmed")
    (hcm : truthy cm2 = true)
    (hsave : net.saveOutcome = none) :
    (confirmAppointment env net currentYear store doctors appointmentId doctorId
        timeSlot2 appointmentDate2 cm2).response.success = true ∧
    (confirmAppointment env net currentYear store doctors appointmentId doctorId
        timeSlot2 appointmentDate2 cm2).response.status = 200 ∧
    ∀ b ∈ (confirmAppointment env net currentYear store doctors appointmentId doctorId
        timeSlot2 appointmentDate2 cm2).store,
      b.id = appointmentId →
        b.timeSlot = some timeSlot2 ∧ b.appointmentDate = some appointmentDate2 ∧
        b.confirmationMessage = cm2 ∧ b.status = "confirmed" := by
  have hid : m.id = appointmentId := by
    have := List.find?_some hfind
    simp only [Bool.and_eq_true, beq_iff_eq] at this
    exact this.1
  obtain ⟨s, rfl⟩ : ∃ s, cm2 = some s := by
    cases cm2 with
    | none => simp [truthy] at hcm
    | some s => exact ⟨s, rfl⟩
  refine ⟨by simp [confirmAppointment, hfind, hsave],
    by simp [confirmAppointment, hfind, hsave], ?_⟩
  intro b hb hbid
  simp only [confirmAppointment, hfind, hsave] at hb
  rcases List.mem_map.mp hb with ⟨a, _ha, hfa⟩
  subst hfa
  by_cases hcase : (a.id == m.id) = true
  · simp [hcase, hcm]
  · simp only [hcase, if_false, Bool.false_eq_true] at hbid ⊢
    exact absurd (hbid.trans hid.symm) (by simpa using hcase)

/-- Witness for C6 at a concrete input: `a1` already confirmed for
`10:00-10:30` on `2024-06-01` is confirmed again with a different slot, date
and message, and the store carries the new values. -/
theorem C6_reconfirm_last_write_wins_witness :
    (confirmAppointment envOk netOk 2024 [a1Confirmed] [d1] "a1" "d1"
        "11:00-11:30" "2024-06-02" (some "See you then")).response.success = true ∧
    (confirmAppointment envOk netOk 2024 [a1Confirmed] [d1] "a1" "d1"
        "11:00-11:30" "2024-06-02" (some "See you then")).response.status = 200 ∧
    ∀ b ∈ (confirmAppointment envOk netOk 2024 [a1Confirmed] [d1] "a1" "d1"
        "11:00-11:30" "2024-06-02" (some "See you then")).store,
      b.id = "a1" →
        b.timeSlot = some "11:00-11:30" ∧ b.appointmentDate = some "2024-06-02" ∧
        b.confirmationMessage = some "See you then" ∧ b.status = "confirmed" :=
  C6_reconfirm_last_write_wins envOk netOk 2024 [a1Confirmed] [d1] "a1" "d1"
    "11:00-11:30" "2024-06-02" (some "See you then") a1Confirmed
    (by decide) rfl rfl rfl

/-- C2 amended: when `confirmationMessage` is omitted, the persisted message
is the generated template embedding the supplied time slot and the SHORT
numeric locale date (`toLocaleDateString()` with no arguments, e.g.
`6/1/2024`), not the long-form date. -/
theorem C2_amended_template_short_date (env : Env) (net : Net) (currentYear : Nat)
    (store : List Appointment) (doctors : List Doctor)
    (appointmentId doctorId timeSlot appointmentDate : String) (m : Appointment)
    (hfind : store.find? (fun a => a.id == appointmentId && a.doctorid == doctorId) = some m)
    (hsave : net.saveOutcome = none) :
    (confirmAppointment env net currentYear store doctors appointmentId doctorId
        timeSlot appointmentDate none).response.appointment =
      some { m with
        status := "confirmed"
        timeSlot := some timeSlot
        appointmentDate := some appointmentDate
        confirmationMessage := some ("Your appointment has been confirmed for " ++
          timeSlot ++ " on " ++ toLocaleDateStringShort appointmentDate) } ∧
    ∀ b ∈ (confirmAppointment env net currentYear store doctors appointmentId doctorId
        timeSlot appointmentDate none).store,
      b.id = appointmentId →
        b.confirmationMessage = some ("Your appointment has been confirmed for " ++
          timeSlot ++ " on " ++ toLocaleDateStringShort appointmentDate) := by
  have hid : m.id = appointmentId := by
    have := List.find?_some hfind
    simp only [Bool.and_eq_true, beq_iff_eq] at this
    exact this.1
  refine ⟨by simp [confirmAppointment, hfind, hsave, truthy, defaultConfirmationMessage], ?_⟩
  intro b hb hbid
  simp only [confirmAppointment, hfind, hsave] at hb
  rcases List.mem_map.mp hb with ⟨a, _ha, hfa⟩
  subst hfa
  by_cases hcase : (a.id == m.id) = true
  · simp [hcase, truthy, defaultConfirmationMessage]
  · simp only [hcase, if_false, Bool.false_eq_true] at hbid ⊢
    exact absurd (hbid.trans hid.symm) (by simpa using hcase)

/-- Witness for C2: the section-8 confirmation with omitted message persists
the short-date template sentence. -/
theorem C2_amended_template_short_date_witness :
    (confirmAppointment envOk netOk 2024 [a1] [d1] "a1" "d1"
        "10:00-10:30" "2024-06-01" none).response.appointment =
      some { a1 with
        status := "confirmed"
        timeSlot := some "10:00-10:30"
        appointmentDate := some "2024-06-01"
        confirmationMessage := some ("Your appointment has been confirmed for " ++
          "10:00-10:30" ++ " on " ++ toLocaleDateStringShort "2024-06-01") } ∧
    ∀ b ∈ (confirmAppointment envOk netOk 2024 [a1] [d1] "a1" "d1"
        "10:00-10:30" "2024-06-01" none).store,
      b.id = "a1" →
        b.confirmationMessage = some ("Your appointment has been confirmed for " ++
          "10:00-10:30" ++ " on " ++ toLocaleDateStringShort "2024-06-01") :=
  C2_amended_template_short_date envOk netOk 2024 [a1] [d1] "a1" "d1"
    "10:00-10:30" "2024-06-01" a1 (by decide) rfl

/-- C2 counterexample: in the section-8 scenario with omitted message, the
persisted message is the short-date sentence `... on 6/1/2024`; it does not
contain the long-form formatted date (weekday, month name, day, year), so it
is not the template embedding the long-form date that the claim describes. -/
theorem C2_counterexample_long_date_not_embedded :
    Option.bind (confirmAppointment envOk netOk 2024 [a1] [d1] "a1" "d1"
        "10:00-10:30" "2024-06-01" none).response.appointment
        (fun a => a.confirmationMessage) =
      some "Your appointment has been confirmed for 10:00-10:30 on 6/1/2024" ∧
    toLocaleDateStringLong "2024-06-01" = "Saturday, June 1, 2024" ∧
    containsSub "Your appointment has been confirmed for 10:00-10:30 on 6/1/2024"
      "Saturday, June 1, 2024" = false ∧
    containsSub "Your appointment has been confirmed for 10:00-10:30 on 6/1/2024"
      "June 1, 2024" = false := by
  decide

/-- C1: evaluation at the failing input.  With the sender account identity
missing, the notification fails (`success := false` in the email result) and
no network action happens, yet the handler responds 200 success with
`emailSent` equal to true — the hardcoded value of doctor.js line 320 — while
the store does reflect the confirmed status.  The claim says this indicator
is false on notification failure; the code always reports true. -/
theorem C1_code_behavior_emailSent_hardcoded :
    (confirmAppointment envNoUser netOk 2024 [a1] [d1] "a1" "d1"
        "10:00-10:30" "2024-06-01" none).response.success = true ∧
    (confirmAppointment envNoUser netOk 2024 [a1] [d1] "a1" "d1"
        "10:00-10:30" "2024-06-01" none).response.status = 200 ∧
    (confirmAppointment envNoUser netOk 2024 [a1] [d1] "a1" "d1"
        "10:00-10:30" "2024-06-01" none).response.emailSent = some true ∧
    (confirmAppointment envNoUser netOk 2024 [a1] [d1] "a1" "d1"
        "10:00-10:30" "2024-06-01" none).emailResult =
      some { success := false, error := some "EMAIL_USER is not set in environment variables" } ∧
    (confirmAppointment envNoUser netOk 2024 [a1] [d1] "a1" "d1"
        "10:00-10:30" "2024-06-01" none).netActions = [] ∧
    (confirmAppointment envNoUser netOk 2024 [a1] [d1] "a1" "d1"
        "10:00-10:30" "2024-06-01" none).store.map (fun a => a.status) = ["confirmed"] := by
  decide

/-- The email the confirmation pipeline actually sends in the section-8
scenario: rendered from the persisted record and the (always-null) doctor
lookup result. -/
theorem scenarioPipelineMail :
    (confirmAppointment envOk netOk 2024 [a1] [d1] "a1" "d1"
        "10:00-10:30" "2024-06-01" none).netActions =
      [NetAction.verify, NetAction.sendMail (confirmationMailOptions envOk a1Confirmed none 2024)] := rfl

set_option maxRecDepth 100000 in
/-- The subject of the scenario email contains the long-form formatted date. -/
theorem scenarioSubjectHasDate :
    containsSub (confirmationMailOptions envOk a1Confirmed none 2024).subject
      (toLocaleDateStringLong "2024-06-01") = true := by
  decide

set_option maxRecDepth 100000 in
/-- Rendered with no doctor details, the HTML body omits the doctor name. -/
theorem scenarioHtmlNoSmith :
    containsSub (confirmationMailOptions envOk a1Confirmed none 2024).html "Smith" = false := by
  decide

set_option maxRecDepth 100000 in
/-- Rendered with the doctor record present, the HTML body contains the name. -/
theorem scenarioHtmlSmith :
    containsSub (confirmationMailOptions envOk a1Confirmed (some d1) 2024).html "Smith" = true := by
  decide

set_option maxRecDepth 100000 in
/-- Rendered with the doctor record present, the HTML body contains the
specialization. -/
theorem scenarioHtmlCardiology :
    containsSub (confirmationMailOptions envOk a1Confirmed (some d1) 2024).html "Cardiology" = true := by
  decide

/-- C3: evaluation of the section-8 scenario.  The subject of the rendered
email contains the long-form formatted date, but the doctor lookup of the
handler returns null on every input (unbound `mongoose` identifier in
doctor.js), so the pipeline renders the email with no doctor details and the
rendered HTML body contains neither "Smith" nor "Cardiology"; rendering the
same email with the looked-up doctor record, as the spec intends, does
contain both. -/
theorem C3_code_behavior_doctor_block_omitted :
    getDoctorById "d1" [d1] = none ∧
    (confirmAppointment envOk netOk 2024 [a1] [d1] "a1" "d1"
        "10:00-10:30" "2024-06-01" none).netActions =
      [NetAction.verify, NetAction.sendMail (confirmationMailOptions envOk a1Confirmed none 2024)] ∧
    containsSub (confirmationMailOptions envOk a1Confirmed none 2024).subject
      (toLocaleDateStringLong "2024-06-01") = true ∧
    containsSub (confirmationMailOptions envOk a1Confirmed none 2024).html "Smith" = false ∧
    containsSub (confirmationMailOptions envOk a1Confirmed (some d1) 2024).html "Smith" = true ∧
    containsSub (confirmationMailOptions envOk a1Confirmed (some d1) 2024).html "Cardiology" = true :=
  ⟨rfl, scenarioPipelineMail, scenarioSubjectHasDate, scenarioHtmlNoSmith,
    scenarioHtmlSmith, scenarioHtmlCardiology⟩

/-- The JS truthiness of an absent value. -/
theorem truthy_none : truthy none = false := rfl

/-- C7: with valid configuration and a successful connectivity check, when the
found appointment has no patient email recorded, the email service returns the
missing-recipient failure without any delivery attempt, while the handler
still responds 200 success for the store update. -/
theorem C7_missing_recipient_no_delivery (env : Env) (net : Net) (currentYear : Nat)
    (store : List Appointment) (doctors : List Doctor)
    (appointmentId doctorId timeSlot appointmentDate : String)
    (confirmationMessage : Option String) (m : Appointment)
    (hu : truthy env.EMAIL_USER = true) (hp : truthy env.EMAIL_PASS = true)
    (hverify : net.verifyOutcome = none) (hsave : net.saveOutcome = none)
    (hfind : store.find? (fun a => a.id == appointmentId && a.doctorid == doctorId) = some m)
    (hmail : m.patientEmail = none) :
    (confirmAppointment env net currentYear store doctors appointmentId doctorId
        timeSlot appointmentDate confirmationMessage).response.status = 200 ∧
    (confirmAppointment env net currentYear store doctors appointmentId doctorId
        timeSlot appointmentDate confirmationMessage).response.success = true ∧
    (confirmAppointment env net currentYear store doctors appointmentId doctorId
        timeSlot appointmentDate confirmationMessage).emailResult =
      some { success := false, error := some "Patient email not found" } ∧
    attemptedSend (confirmAppointment env net currentYear store doctors appointmentId
        doctorId timeSlot appointmentDate confirmationMessage).netActions = false := by
  refine ⟨by simp [confirmAppointment, hfind, hsave], by simp [confirmAppointment, hfind, hsave], ?_, ?_⟩ <;>
    simp [confirmAppointment, hfind, hsave, sendAppointmentConfirmationEmail,
      validateEmailConfig, createTransporter, hu, hp, hverify, hmail, truthy_none,
      attemptedSend, isSend]

/-- Witness for C7 at a concrete input: the appointment of doctor `d1` with no
patient email is confirmed; the store update succeeds, no delivery is
attempted, and the email result is the missing-recipient failure. -/
theorem C7_missing_recipient_no_delivery_witness :
    (confirmAppointment envOk netOk 2024 [aNoEmail] [d1] "a2" "d1"
        "10:00-10:30" "2024-06-01" none).response.status = 200 ∧
    (confirmAppointment envOk netOk 2024 [aNoEmail] [d1] "a2" "d1"
        "10:00-10:30" "2024-06-01" none).response.success = true ∧
    (confirmAppointment envOk netOk 2024 [aNoEmail] [d1] "a2" "d1"
        "10:00-10:30" "2024-06-01" none).emailResult =
      some { success := false, error := some "Patient email not found" } ∧
    attemptedSend (confirmAppointment envOk netOk 2024 [aNoEmail] [d1] "a2" "d1"
        "10:00-10:30" "2024-06-01" none).netActions = false :=
  C7_missing_recipient_no_delivery envOk netOk 2024 [aNoEmail] [d1] "a2" "d1"
    "10:00-10:30" "2024-06-01" none aNoEmail rfl rfl rfl rfl (by decide) rfl

/-- C8: when the sender account identity (EMAIL_USER) is absent from the
environment — or it is present and the sender credential (EMAIL_PASS) is
absent — both email operations fail with a result whose error names the
missing variable, and the check happens before any network action: the
returned trace is empty (no connectivity check, no send). -/
theorem C8_missing_config_fails_fast (env : Env) (net : Net)
    (appointmentData : Appointment) (doctorDetails : Option Doctor)
    (email otp : String) (currentYear : Nat) :
    (env.EMAIL_USER = none →
      sendAppointmentConfirmationEmail env net appointmentData doctorDetails currentYear =
        ({ success := false, error := some "EMAIL_USER is not set in environment variables" }, []) ∧
      sendOTPEmail env net email otp currentYear =
        ({ success := false, error := some "EMAIL_USER is not set in environment variables" }, [])) ∧
    (truthy env.EMAIL_USER = true → env.EMAIL_PASS = none →
      sendAppointmentConfirmationEmail env net appointmentData doctorDetails currentYear =
        ({ success := false, error := some "EMAIL_PASS is not set in environment variables" }, []) ∧
      sendOTPEmail env net email otp currentYear =
        ({ success := false, error := some "EMAIL_PASS is not set in environment variables" }, [])) := by
  constructor
  · intro hu
    constructor <;>
      simp [sendAppointmentConfirmationEmail, sendOTPEmail, validateEmailConfig, hu, truthy_none]
  · intro hu hp
    constructor <;>
      simp [sendAppointmentConfirmationEmail, sendOTPEmail, validateEmailConfig, hu, hp, truthy_none]

/-- Witness for C8 at concrete inputs: with EMAIL_USER missing the
confirmation email fails naming EMAIL_USER with no network action; with
EMAIL_PASS missing the OTP email fails naming EMAIL_PASS with no network
action. -/
theorem C8_missing_config_fails_fast_witness :
    sendAppointmentConfirmationEmail envNoUser netOk a1Confirmed none 2024 =
      ({ success := false, error := some "EMAIL_USER is not set in environment variables" }, []) ∧
    sendOTPEmail envNoPass netOk "p@x.com" "123456" 2024 =
      ({ success := false, error := some "EMAIL_PASS is not set in environment variables" }, []) :=
  ⟨((C8_missing_config_fails_fast envNoUser netOk a1Confirmed none "p@x.com" "123456" 2024).1 rfl).1,
   ((C8_missing_config_fails_fast envNoPass netOk a1Confirmed none "p@x.com" "123456" 2024).2 rfl rfl).2⟩

/-- C9: for a failed delivery (valid configuration, successful connectivity
check, recipient present, send throws), the adapter performed the
connectivity check before the send attempt (the trace starts with verify and
contains the send), the result is a failure whose details preserve the
underlying error message, and the error is classified: EAUTH as an
authentication failure, ECONNECTION or ETIMEDOUT as a connection failure,
and any other code as an unknown failure carrying the underlying message. -/
theorem C9_send_failure_classified (env : Env) (net : Net)
    (appointmentData : Appointment) (doctorDetails : Option Doctor)
    (currentYear : Nat) (e : JsError)
    (hu : truthy env.EMAIL_USER = true) (hp : truthy env.EMAIL_PASS = true)
    (hverify : net.verifyOutcome = none)
    (hmail : truthy appointmentData.patientEmail = true)
    (hsend : net.sendOutcome = .error e) :
    attemptedSend (sendAppointmentConfirmationEmail env net appointmentData doctorDetails currentYear).2 = true ∧
    verifyBeforeAnySend (sendAppointmentConfirmationEmail env net appointmentData doctorDetails currentYear).2 = true ∧
    (sendAppointmentConfirmationEmail env net appointmentData doctorDetails currentYear).1.success = false ∧
    (sendAppointmentConfirmationEmail env net appointmentData doctorDetails currentYear).1.details = some e.message ∧
    (e.code = some "EAUTH" →
      (sendAppointmentConfirmationEmail env net appointmentData doctorDetails currentYear).1.error =
        some "Email authentication failed. Please check your email configuration.") ∧
    (e.code = some "ECONNECTION" ∨ e.code = some "ETIMEDOUT" →
      (sendAppointmentConfirmationEmail env net appointmentData doctorDetails currentYear).1.error =
        some "Connection error. Please check your internet connection.") ∧
    (e.code ≠ some "EAUTH" → e.code ≠ some "ECONNECTION" → e.code ≠ some "ETIMEDOUT" →
      e.message ≠ "" →
      (sendAppointmentConfirmationEmail env net appointmentData doctorDetails currentYear).1.error =
        some e.message) := by
  have hred : sendAppointmentConfirmationEmail env net appointmentData doctorDetails currentYear =
      (confirmationEmailCatch e,
        [NetAction.verify,
         NetAction.sendMail (confirmationMailOptions env appointmentData doctorDetails currentYear)]) := by
    simp [sendAppointmentConfirmationEmail, validateEmailConfig, createTransporter,
      hu, hp, hverify, hmail, hsend]
  rw [hred]
  refine ⟨by simp [attemptedSend, isSend], rfl, by simp [confirmationEmailCatch],
    by simp [confirmationEmailCatch], ?_, ?_, ?_⟩
  · intro hcode
    simp [confirmationEmailCatch, hcode]
  · rintro (hcode | hcode) <;> simp [confirmationEmailCatch, hcode]
  · intro h1 h2 h3 h4
    simp [confirmationEmailCatch, h1, h2, h3, h4]

/-- Witness for C9 at a concrete input: the send throws an EAUTH error; the
trace is verify-then-send, the result error is the authentication-failure
message, and the details preserve the SMTP message. -/
theorem C9_send_failure_classified_witness :
    attemptedSend (sendAppointmentConfirmationEmail envOk netAuthFail a1Confirmed none 2024).2 = true ∧
    verifyBeforeAnySend (sendAppointmentConfirmationEmail envOk netAuthFail a1Confirmed none 2024).2 = true ∧
    (sendAppointmentConfirmationEmail envOk netAuthFail a1Confirmed none 2024).1.error =
      some "Email authentication failed. Please check your email configuration." ∧
    (sendAppointmentConfirmationEmail envOk netAuthFail a1Confirmed none 2024).1.details =
      some "Invalid login: 535-5.7.8 Username and Password not accepted" :=
  have h := C9_send_failure_classified envOk netAuthFail a1Confirmed none 2024
    { code := some "EAUTH", message := "Invalid login: 535-5.7.8 Username and Password not accepted" }
    rfl rfl rfl rfl rfl
  ⟨h.1, h.2.1, h.2.2.2.2.1 rfl, h.2.2.2.1⟩

/-- C10: the email operations are total with errors as values: in the
embedding every thrown collaborator error is consumed by the catch blocks, so
for every input the functions return a result object, a result with success
true always carries a message id, and a result with success false always
carries an error message. -/
theorem C10_email_results_wellformed (env : Env) (net : Net) (email otp : String)
    (appointmentData : Appointment) (doctorDetails : Option Doctor) (currentYear : Nat) :
    ((sendOTPEmail env net email otp currentYear).1.success = true →
      (sendOTPEmail env net email otp currentYear).1.messageId.isSome = true) ∧
    ((sendOTPEmail env net email otp currentYear).1.success = false →
      (sendOTPEmail env net email otp currentYear).1.error.isSome = true) ∧
    ((sendAppointmentConfirmationEmail env net appointmentData doctorDetails currentYear).1.success = true →
      (sendAppointmentConfirmationEmail env net appointmentData doctorDetails currentYear).1.messageId.isSome = true) ∧
    ((sendAppointmentConfirmationEmail env net appointmentData doctorDetails currentYear).1.success = false →
      (sendAppointmentConfirmationEmail env net appointmentData doctorDetails currentYear).1.error.isSome = true) := by
  rcases net with ⟨vo, so, sv⟩
  cases hu : truthy env.EMAIL_USER <;> cases hp : truthy env.EMAIL_PASS <;>
    cases vo <;> rcases so with e | mid <;>
    cases hm : truthy appointmentData.patientEmail <;>
    simp [sendOTPEmail, sendAppointmentConfirmationEmail, validateEmailConfig,
      createTransporter, otpEmailCatch, confirmationEmailCatch, hu, hp, hm]

/-- Witness for C10 at concrete inputs: a fully successful OTP send carries a
message id, and a confirmation send with missing configuration carries an
error message. -/
theorem C10_email_results_wellformed_witness :
    (sendOTPEmail envOk netOk "p@x.com" "123456" 2024).1.messageId.isSome = true ∧
    (sendAppointmentConfirmationEmail envNoUser netOk a1Confirmed none 2024).1.error.isSome = true :=
  ⟨(C10_email_results_wellformed envOk netOk "p@x.com" "123456" a1Confirmed none 2024).1 rfl,
   (C10_email_results_wellformed envNoUser netOk "p@x.com" "123456" a1Confirmed none 2024).2.2.2 rfl⟩

end MediCare
